import Mathlib

/-!
Shallow embedding of the NextStop travel-planner web application
(`src/app.py`, Flask) and verification of its specification claims.

Modelling conventions:
  * The Flask `session` dict is the `Session` structure; a key being absent
    is `none`.
  * The SQLAlchemy user table is a `List User` in insertion order;
    `User.query.filter_by(email=...).first()` is `firstByEmail`.
  * External collaborators are parameters: the werkzeug password hashing
    (`HashModel`), the HTTP client used by the weather lookup
    (`net : String → HttpResult`), and the generative-text service
    (`gen : String → GenResult`).  A transport exception or a JSON decode
    failure raised by `requests.get` / `.json()` is `HttpResult.exn`.
  * JSON numbers in the weather provider response are modelled as `Int`;
    no claim depends on their arithmetic.
  * `flash(msg, category)` calls are modelled as `Flash` values carried in
    the response, and each route handler returns a response describing the
    rendered template or redirect target.
  * Routes are modelled for requests that supply their form fields
    (`request.form.get` yielding a string); the JSON `city` field of
    `/get_weather`, whose absence the claims are about, is an
    `Option String`.
-/

namespace NextStop

/-- A `flash(message, category)` notice made visible to the user. -/
structure Flash where
  message : String
  category : String
deriving DecidableEq, Repr

/-! ### Password hashing (werkzeug, external collaborator)

`generate_password_hash(password, method='pbkdf2:sha256')` draws a fresh
salt and stores `salt $ pbkdf2(salt, password)`; `check_password_hash`
re-derives the digest from the stored salt and the supplied password.
The key-derivation function itself is external, so it is a parameter. -/

/-- The externally provided key-derivation function: `pbkdf2 salt password`
is the digest werkzeug derives. -/
structure HashModel where
  pbkdf2 : String → String → String

/-- A stored werkzeug password hash: the salt together with the derived
digest.  The plain password is not a component. -/
structure PwHash where
  salt : String
  digest : String
deriving DecidableEq, Repr

/-- werkzeug `generate_password_hash(password)` with salt `salt`. -/
def generate_password_hash (hm : HashModel) (password salt : String) : PwHash :=
  ⟨salt, hm.pbkdf2 salt password⟩

/-- werkzeug `check_password_hash(stored, password)`: re-derive the digest
from the stored salt and compare. -/
def check_password_hash (hm : HashModel) (stored : PwHash) (password : String) : Bool :=
  hm.pbkdf2 stored.salt password == stored.digest

/-! ### Data model -/

/-- Database model `User` (`app.py` lines 28-32). -/
structure User where
  id : Nat
  name : String
  email : String
  password : PwHash
deriving DecidableEq, Repr

/-- The persistent user table, in insertion order. -/
abbrev Store := List User

/-- `User.query.filter_by(email=email).first()`. -/
def firstByEmail (store : Store) (email : String) : Option User :=
  store.find? (fun u => u.email == email)

/-- Success record returned by `get_weather_data` (`app.py` lines 186-195). -/
structure WeatherRecord where
  location : String
  description : String
  temperature : Int
  temp_min : Int
  temp_max : Int
  humidity : Int
  wind_speed : Int
  icon : String
deriving DecidableEq, Repr

/-- A weather lookup result: the success record or an `{"error": ...}`
record. -/
inductive WeatherResult where
  | ok (r : WeatherRecord)
  | err (message : String)
deriving DecidableEq, Repr

/-- The `travel_data` bundle stored in the session (`app.py` lines 151-157). -/
structure TravelData where
  destination : String
  start_date : String
  end_date : String
  itinerary : String
  weather : WeatherResult
deriving DecidableEq, Repr

/-- The Flask session dict: keys `user_id`, `user_name`, `travel_data`;
an absent key is `none`. -/
structure Session where
  user_id : Option Nat
  user_name : Option String
  travel_data : Option TravelData
deriving DecidableEq, Repr

/-- `session.clear()` leaves every key absent. -/
def clearedSession : Session := ⟨none, none, none⟩

/-! ### Weather lookup (`get_weather_data`, `app.py` lines 173-197) -/

/-- One entry of the provider `weather` array. -/
structure WeatherEntry where
  description : String
  icon : String
deriving DecidableEq, Repr

/-- The provider `main` object. -/
structure MainFields where
  temp : Int
  temp_min : Int
  temp_max : Int
  humidity : Int
deriving DecidableEq, Repr

/-- The provider `wind` object. -/
structure WindFields where
  speed : Int
deriving DecidableEq, Repr

/-- The decoded provider JSON body; each top-level key may be absent. -/
structure WeatherJson where
  message : Option String
  weather : Option (List WeatherEntry)
  main : Option MainFields
  wind : Option WindFields
deriving DecidableEq, Repr

/-- Outcome of `requests.get(url)` followed by `response.json()`: a decoded
response with its status code, or an exception (transport failure or JSON
decode failure) carrying its text. -/
inductive HttpResult where
  | resp (status : Nat) (body : WeatherJson)
  | exn (message : String)
deriving Repr

/-- Python `str.capitalize()`: first character upper-cased, the rest
lower-cased. -/
def pyCapitalize (s : String) : String :=
  match s.data with
  | [] => ""
  | c :: cs => String.mk (c.toUpper :: cs.map Char.toLower)

/-- The OpenWeatherMap request URL built in `get_weather_data`. -/
def weatherUrl (city key : String) : String :=
  "https://api.openweathermap.org/data/2.5/weather?q=" ++ city
    ++ "&units=metric&appid=" ++ key

/-- Building the success dict from the decoded 200 body
(`app.py` lines 186-195); a missing field raises inside the `try`, which
the handler converts to an error record.  The exception text for a missing
JSON field is modelled as the uniform string `KeyError`. -/
def buildRecord (city : String) (j : WeatherJson) : Except String WeatherRecord :=
  match j.weather, j.main, j.wind with
  | some (w0 :: _), some m, some w =>
      .ok ⟨pyCapitalize city, w0.description, m.temp, m.temp_min, m.temp_max,
           m.humidity, w.speed,
           "http://openweathermap.org/img/w/" ++ w0.icon ++ ".png"⟩
  | _, _, _ => .error "KeyError"

/-- Result of `get_weather_data` together with the list of URLs passed to
`requests.get` while computing it (the network-call trace). -/
structure FetchResult where
  result : WeatherResult
  calls : List String
deriving Repr

/-- `get_weather_data(city)` (`app.py` lines 173-197).  `key` is the
module-level `OPENWEATHER_API_KEY` (`os.getenv` result: `none` if unset;
the falsy check also catches the empty string).  `net` is the HTTP
client. -/
def get_weather_data (key : Option String) (net : String → HttpResult)
    (city : String) : FetchResult :=
  match key with
  | none => ⟨.err "Missing API Key", []⟩
  | some k =>
    if k = "" then ⟨.err "Missing API Key", []⟩
    else
      let url := weatherUrl city k
      match net url with
      | .exn e => ⟨.err e, [url]⟩
      | .resp status j =>
        if status ≠ 200 then
          ⟨.err ("API Error: " ++ j.message.getD "Unknown error"), [url]⟩
        else
          match buildRecord city j with
          | .ok r => ⟨.ok r, [url]⟩
          | .error e => ⟨.err e, [url]⟩

/-! ### Route handlers -/

/-- Response of `GET /dashboard` (`app.py` lines 43-50). -/
inductive DashResponse where
  | toLogin (f : Flash)
  | page (travel_data : Option TravelData)
deriving DecidableEq, Repr

/-- `dashboard()`: requires `user_id` in the session, then renders
`session.get('travel_data', {})`. -/
def dashboard (sess : Session) : DashResponse :=
  if sess.user_id.isNone then
    .toLogin ⟨"Please login to access your dashboard.", "warning"⟩
  else
    .page sess.travel_data

/-- Response of `POST /login` (`app.py` lines 60-75). -/
inductive LoginResponse where
  | toDashboard (f : Flash)
  | loginPage (f : Flash)
deriving DecidableEq, Repr

/-- `login()` on POST with form fields `email`, `password`. -/
def login_post (hm : HashModel) (store : Store) (sess : Session)
    (email password : String) : LoginResponse × Session :=
  match firstByEmail store email with
  | some user =>
    if check_password_hash hm user.password password then
      (.toDashboard ⟨"Welcome, " ++ user.name ++ "!", "success"⟩,
       { sess with user_id := some user.id, user_name := some user.name })
    else
      (.loginPage ⟨"Invalid email or password!", "danger"⟩, sess)
  | none => (.loginPage ⟨"Invalid email or password!", "danger"⟩, sess)

/-- The POST form of `/register`. -/
structure RegisterForm where
  name : String
  email : String
  password : String
  password2 : String
deriving DecidableEq, Repr

/-- Response of `POST /register` (`app.py` lines 77-106). -/
inductive RegisterResponse where
  | backToForm (f : Flash)
  | toLogin (f : Flash)
deriving DecidableEq, Repr

/-- `register()` on POST (`app.py` lines 79-104): password-match check,
hash, duplicate-email check, insert.  `salt` is the fresh salt werkzeug
draws for this call; the new id models the autoincrement primary key. -/
def register_post (hm : HashModel) (salt : String) (store : Store)
    (form : RegisterForm) : RegisterResponse × Store :=
  if form.password ≠ form.password2 then
    (.backToForm ⟨"Passwords do not match!", "danger"⟩, store)
  else
    let hashed := generate_password_hash hm form.password salt
    if (firstByEmail store form.email).isSome then
      (.backToForm ⟨"Email already registered!", "danger"⟩, store)
    else
      (.toLogin ⟨"Registration successful! You can now log in.", "success"⟩,
       store ++ [⟨store.length + 1, form.name, form.email, hashed⟩])

/-- Response of `GET /logout` (`app.py` lines 108-112). -/
inductive LogoutResponse where
  | toHome (f : Flash)
deriving DecidableEq, Repr

/-- `logout()`: `session.clear()` then redirect home. -/
def logout (_sess : Session) : LogoutResponse × Session :=
  (.toHome ⟨"You have been logged out!", "info"⟩, clearedSession)

/-- Outcome of `model.generate_content(prompt)` followed by
`response.text`: the raw text, or an exception carrying its text. -/
inductive GenResult where
  | text (t : String)
  | raised (e : String)
deriving Repr

/-- The f-string prompt built in `generate_itinerary`
(`app.py` lines 125-140), byte for byte. -/
def itineraryPrompt (destination start_date end_date : String) : String :=
  "\n    Generate a structured, day-wise travel itinerary for " ++ destination
    ++ " from " ++ start_date ++ " to " ++ end_date ++ ".\n    \n"
    ++ "    ## Formatting:\n"
    ++ "    - Each day should start with **Day X: [Date] - [Theme]**\n"
    ++ "    - Use **bulleted points (-)** for activities.\n"
    ++ "    - Ensure clear separation between days.\n\n"
    ++ "    Example:\n"
    ++ "    **Day 1: Exploring " ++ destination ++ "**\n"
    ++ "    - 09:00 AM: Arrive and check-in at the hotel.\n"
    ++ "    - 10:00 AM: Visit the historic city center.\n"
    ++ "    - 12:00 PM: Lunch at a famous local restaurant.\n"
    ++ "    - 02:00 PM: Explore museums and cultural sites.\n"
    ++ "    - 07:00 PM: Dinner at a waterfront restaurant.\n    "

/-- Response of `POST /generate_itinerary` (`app.py` lines 114-159).
`failed` is the unhandled exception from the text-generation call: the
request fails with no fallback content. -/
inductive ItinResponse where
  | toLogin (f : Flash)
  | failed (exnText : String)
  | toDashboard
deriving DecidableEq, Repr

/-- `generate_itinerary()`: session guard, text generation, weather
lookup, session write, redirect — in that order. -/
def generate_itinerary (key : Option String) (net : String → HttpResult)
    (gen : String → GenResult) (sess : Session)
    (destination start_date end_date : String) : ItinResponse × Session :=
  if sess.user_id.isNone then
    (.toLogin ⟨"Please login to generate an itinerary.", "warning"⟩, sess)
  else
    match gen (itineraryPrompt destination start_date end_date) with
    | .raised e => (.failed e, sess)
    | .text itinerary =>
      let weather_data := (get_weather_data key net destination).result
      let bundle : TravelData :=
        ⟨destination, start_date, end_date, itinerary, weather_data⟩
      (.toDashboard, { sess with travel_data := some bundle })

/-- The JSON body of `POST /get_weather`; the `city` field may be absent. -/
structure WeatherRequestBody where
  city : Option String
deriving DecidableEq, Repr

/-- Response of `POST /get_weather` (`app.py` lines 161-171): HTTP status,
JSON body, and the network-call trace of the handler. -/
structure WeatherRouteResult where
  status : Nat
  body : WeatherResult
  calls : List String
deriving Repr

/-- `get_weather()`: `data.get("city", "")`, falsy check, then
`get_weather_data`. -/
def get_weather (key : Option String) (net : String → HttpResult)
    (data : WeatherRequestBody) : WeatherRouteResult :=
  let city := data.city.getD ""
  if city = "" then
    ⟨400, .err "City not provided", []⟩
  else
    let t := get_weather_data key net city
    ⟨200, t.result, t.calls⟩

/-- A user store reachable from the empty table by registration requests
(the only operation of the system that writes the table). -/
inductive ReachableStore (hm : HashModel) : Store → Prop where
  | empty : ReachableStore hm []
  | register (store : Store) (salt : String) (form : RegisterForm) :
      ReachableStore hm store →
      ReachableStore hm (register_post hm salt store form).2

/-! ### Concrete fixtures used to instantiate the theorems -/

/-- A concrete key-derivation function for instantiations. -/
def catHash : HashModel := ⟨fun salt pw => salt ++ "#" ++ pw⟩

/-- A provider JSON body with every field present. -/
def sampleJson : WeatherJson :=
  ⟨some "city not found", some [⟨"clear sky", "01d"⟩], some ⟨21, 18, 24, 40⟩,
   some ⟨5⟩⟩

/-- An HTTP client always answering 200 with `sampleJson`. -/
def okNet : String → HttpResult := fun _ => .resp 200 sampleJson

/-- An HTTP client always answering 404 with `sampleJson`. -/
def badNet : String → HttpResult := fun _ => .resp 404 sampleJson

/-- An HTTP client whose every call raises. -/
def exnNet : String → HttpResult := fun _ => .exn "ConnectionError"

/-- A text-generation service always returning one line of text. -/
def okGen : String → GenResult := fun _ => .text "Day 1: Exploring Paris"

/-- A text-generation service whose every call raises. -/
def failGen : String → GenResult := fun _ => .raised "UpstreamError"

/-- A registration form with matching passwords. -/
def adaForm : RegisterForm := ⟨"Ada", "ada@x.com", "pw1", "pw1"⟩

/-- The store after registering `adaForm` on the empty table. -/
def adaStore : Store := (register_post catHash "s1" [] adaForm).2

/-- A stale travel bundle sitting in the session before a new generation. -/
def staleBundle : TravelData := ⟨"Rome", "2025-01-01", "2025-01-02", "old", .err "x"⟩

/-- An authenticated session already holding a previous bundle. -/
def authedSession : Session := ⟨some 1, some "Ada", some staleBundle⟩

/-! ### Helper lemmas -/

/-- The register handler either leaves the store unchanged or appends
exactly one user record carrying the salted hash of the submitted
password. -/
theorem register_post_store_cases (hm : HashModel) (salt : String)
    (store : Store) (form : RegisterForm) :
    (register_post hm salt store form).2 = store ∨
    (register_post hm salt store form).2 =
      store ++ [⟨store.length + 1, form.name, form.email,
                 generate_password_hash hm form.password salt⟩] := by
  unfold register_post
  split
  · exact Or.inl rfl
  · split
    · exact Or.inl rfl
    · exact Or.inr rfl

/-- Appending a user makes its email findable. -/
theorem firstByEmail_append_self (store : Store) (u : User) :
    (firstByEmail (store ++ [u]) u.email).isSome = true := by
  induction store with
  | nil => simp [firstByEmail, List.find?]
  | cons v vs ih =>
    unfold firstByEmail at ih ⊢
    rw [List.cons_append, List.find?_cons]
    cases h : (v.email == u.email)
    · exact ih
    · rfl

/-- With matching passwords on a duplicate email, the register handler
flashes the duplicate notice and leaves the store unchanged. -/
theorem register_post_duplicate (hm : HashModel) (salt : String)
    (store : Store) (form : RegisterForm)
    (h : form.password = form.password2)
    (hdup : (firstByEmail store form.email).isSome = true) :
    register_post hm salt store form =
      (.backToForm ⟨"Email already registered!", "danger"⟩, store) := by
  unfold register_post
  rw [if_neg (fun hne => hne h)]
  dsimp only
  rw [if_pos hdup]

/-- After any registration attempt with matching passwords, the submitted
email is present in the store. -/
theorem email_present_after_attempt (hm : HashModel) (salt : String)
    (store : Store) (form : RegisterForm)
    (h : form.password = form.password2) :
    (firstByEmail (register_post hm salt store form).2 form.email).isSome = true := by
  unfold register_post
  rw [if_neg (fun hne => hne h)]
  dsimp only
  by_cases hdup : (firstByEmail store form.email).isSome = true
  · rw [if_pos hdup]; exact hdup
  · rw [if_neg hdup]
    exact firstByEmail_append_self store
      ⟨store.length + 1, form.name, form.email,
       generate_password_hash hm form.password salt⟩

/-! ### Claim theorems -/

/-- C1: for every authenticated session, a successful POST
`/generate_itinerary` stores in the session a TravelData bundle built
exactly from this request — destination, start date, end date, the
generated itinerary text, and the weather record for the destination —
wholly overwriting any previous bundle, and redirects to the dashboard. -/
theorem C1_generate_stores_latest_bundle (key : Option String)
    (net : String → HttpResult) (gen : String → GenResult) (sess : Session)
    (uid : Nat) (destination start_date end_date text : String)
    (hauth : sess.user_id = some uid)
    (hgen : gen (itineraryPrompt destination start_date end_date) = .text text) :
    generate_itinerary key net gen sess destination start_date end_date =
      (.toDashboard,
       ⟨sess.user_id, sess.user_name,
        some ⟨destination, start_date, end_date, text,
              (get_weather_data key net destination).result⟩⟩) := by
  simp [generate_itinerary, hauth, hgen]

/-- Witness for C1: the end-to-end Paris scenario on an authenticated
session holding a stale bundle. -/
theorem C1_witness :
    authedSession.user_id = some 1 ∧
    okGen (itineraryPrompt "Paris" "2025-06-01" "2025-06-03") =
      .text "Day 1: Exploring Paris" ∧
    generate_itinerary (some "k") okNet okGen authedSession
        "Paris" "2025-06-01" "2025-06-03" =
      (.toDashboard,
       ⟨some 1, some "Ada",
        some ⟨"Paris", "2025-06-01", "2025-06-03", "Day 1: Exploring Paris",
              (get_weather_data (some "k") okNet "Paris").result⟩⟩) :=
  ⟨rfl, rfl,
   C1_generate_stores_latest_bundle (some "k") okNet okGen authedSession 1
     "Paris" "2025-06-01" "2025-06-03" "Day 1: Exploring Paris" rfl rfl⟩

/-- C2: every record of a store reachable by registrations carries only a
salted hash of a password (the plain password only enters through the
key-derivation function); the stored hash verifies against the password it
was built from; and a POST login succeeds exactly when a user with the
submitted email exists and the submitted password verifies against the
stored hash. -/
theorem C2_hashing_and_login (hm : HashModel) :
    (∀ store, ReachableStore hm store →
      ∀ u ∈ store, ∃ pw salt, u.password = generate_password_hash hm pw salt) ∧
    (∀ pw salt : String,
      check_password_hash hm (generate_password_hash hm pw salt) pw = true) ∧
    (∀ (store : Store) (sess : Session) (email password : String),
      (∃ f, (login_post hm store sess email password).1 = .toDashboard f) ↔
      (∃ u, firstByEmail store email = some u ∧
            check_password_hash hm u.password password = true)) := by
  refine ⟨?_, ?_, ?_⟩
  · intro store h
    induction h with
    | empty => intro u hu; cases hu
    | register s salt form _ ih =>
      intro u hu
      rcases register_post_store_cases hm salt s form with hc | hc
      · rw [hc] at hu; exact ih u hu
      · rw [hc] at hu
        rcases List.mem_append.mp hu with hmem | hmem
        · exact ih u hmem
        · rcases List.mem_singleton.mp hmem with rfl
          exact ⟨form.password, salt, rfl⟩
  · intro pw salt
    simp [check_password_hash, generate_password_hash]
  · intro store sess email password
    unfold login_post
    cases hfind : firstByEmail store email with
    | none => simp
    | some u =>
      by_cases hchk : check_password_hash hm u.password password = true
      · simp [hchk]
      · simp [hchk]

/-- Witness for C2 at a concrete hash model and a store reached by one
registration. -/
theorem C2_witness :
    (∀ u ∈ adaStore, ∃ pw salt, u.password = generate_password_hash catHash pw salt) ∧
    check_password_hash catHash (generate_password_hash catHash "pw1" "s1") "pw1" = true ∧
    ((∃ f, (login_post catHash adaStore clearedSession "ada@x.com" "pw1").1 =
        .toDashboard f) ↔
     (∃ u, firstByEmail adaStore "ada@x.com" = some u ∧
           check_password_hash catHash u.password "pw1" = true)) :=
  ⟨(C2_hashing_and_login catHash).1 adaStore
     (ReachableStore.register [] "s1" adaForm ReachableStore.empty),
   (C2_hashing_and_login catHash).2.1 "pw1" "s1",
   (C2_hashing_and_login catHash).2.2 adaStore clearedSession "ada@x.com" "pw1"⟩

/-- C3: after a registration attempt with matching passwords, a second
attempt with the same email and matching passwords fails with the
duplicate-email notice and a redirect back to the form, and leaves the
store exactly as the first attempt left it. -/
theorem C3_duplicate_email_rejected (hm : HashModel) (salt1 salt2 : String)
    (store : Store) (form1 form2 : RegisterForm)
    (h1 : form1.password = form1.password2)
    (hem : form2.email = form1.email)
    (h2 : form2.password = form2.password2) :
    register_post hm salt2 (register_post hm salt1 store form1).2 form2 =
      (.backToForm ⟨"Email already registered!", "danger"⟩,
       (register_post hm salt1 store form1).2) := by
  apply register_post_duplicate hm salt2 _ form2 h2
  rw [hem]
  exact email_present_after_attempt hm salt1 store form1 h1

/-- Witness for C3: registering the same form twice from the empty store. -/
theorem C3_witness :
    adaForm.password = adaForm.password2 ∧
    register_post catHash "s2" (register_post catHash "s1" [] adaForm).2 adaForm =
      (.backToForm ⟨"Email already registered!", "danger"⟩,
       (register_post catHash "s1" [] adaForm).2) :=
  ⟨rfl, C3_duplicate_email_rejected catHash "s1" "s2" [] adaForm adaForm rfl rfl rfl⟩

/-- C4: a registration attempt with mismatched passwords fails with the
mismatch notice and a redirect back to the form before any other check —
for every store, including one already containing the email — and the
store is unchanged. -/
theorem C4_mismatch_fails_first (hm : HashModel) (salt : String)
    (store : Store) (form : RegisterForm)
    (h : form.password ≠ form.password2) :
    register_post hm salt store form =
      (.backToForm ⟨"Passwords do not match!", "danger"⟩, store) := by
  unfold register_post
  rw [if_pos h]

/-- Witness for C4 on a concrete mismatched form over a nonempty store. -/
theorem C4_witness :
    (("a" : String) ≠ "b") ∧
    register_post catHash "s3" adaStore ⟨"Bob", "ada@x.com", "a", "b"⟩ =
      (.backToForm ⟨"Passwords do not match!", "danger"⟩, adaStore) :=
  ⟨by decide,
   C4_mismatch_fails_first catHash "s3" adaStore ⟨"Bob", "ada@x.com", "a", "b"⟩
     (by decide)⟩

/-- C5: the weather lookup is total and never raises to its caller — for
every city it yields either a success record or an error record; with a
key configured, a non-200 upstream response yields the error record
`API Error: ` followed by the provider message (default
`Unknown error`), and a transport exception is converted to an error
record carrying the exception text. -/
theorem C5_fetch_weather_never_raises :
    (∀ (key : Option String) (net : String → HttpResult) (city : String),
      (∃ r, (get_weather_data key net city).result = .ok r) ∨
      (∃ m, (get_weather_data key net city).result = .err m)) ∧
    (∀ (k : String) (net : String → HttpResult) (city : String)
       (st : Nat) (j : WeatherJson),
      k ≠ "" → net (weatherUrl city k) = .resp st j → st ≠ 200 →
      (get_weather_data (some k) net city).result =
        .err ("API Error: " ++ j.message.getD "Unknown error")) ∧
    (∀ (k : String) (net : String → HttpResult) (city e : String),
      k ≠ "" → net (weatherUrl city k) = .exn e →
      (get_weather_data (some k) net city).result = .err e) := by
  refine ⟨?_, ?_, ?_⟩
  · intro key net city
    cases h : (get_weather_data key net city).result with
    | ok r => exact Or.inl ⟨r, rfl⟩
    | err m => exact Or.inr ⟨m, rfl⟩
  · intro k net city st j hk hnet hst
    simp only [get_weather_data, if_neg hk, hnet]
    rw [if_pos hst]
  · intro k net city e hk hnet
    simp only [get_weather_data, if_neg hk, hnet]

/-- Witness for C5 against a 404 provider and a raising transport. -/
theorem C5_witness :
    (("k" : String) ≠ "") ∧
    badNet (weatherUrl "Paris" "k") = .resp 404 sampleJson ∧
    (get_weather_data (some "k") badNet "Paris").result =
      .err ("API Error: " ++ (sampleJson.message.getD "Unknown error")) ∧
    (get_weather_data (some "k") exnNet "Paris").result = .err "ConnectionError" :=
  ⟨by decide, rfl,
   C5_fetch_weather_never_raises.2.1 "k" badNet "Paris" 404 sampleJson
     (by decide) rfl (by decide),
   C5_fetch_weather_never_raises.2.2 "k" exnNet "Paris" "ConnectionError"
     (by decide) rfl⟩

/-- C6: with no API key configured (unset, or the falsy empty string), the
weather lookup returns the `Missing API Key` error record for every city
and issues no network call at all — for every HTTP client, the call trace
is empty. -/
theorem C6_missing_key_no_network (key : Option String)
    (net : String → HttpResult) (city : String)
    (h : key = none ∨ key = some "") :
    get_weather_data key net city = ⟨.err "Missing API Key", []⟩ := by
  rcases h with h | h <;> subst h
  · rfl
  · simp [get_weather_data]

/-- Witness for C6 with the key unset. -/
theorem C6_witness :
    ((none : Option String) = none ∨ (none : Option String) = some "") ∧
    get_weather_data none okNet "Paris" = ⟨.err "Missing API Key", []⟩ :=
  ⟨Or.inl rfl, C6_missing_key_no_network none okNet "Paris" (Or.inl rfl)⟩

/-- C7 counterexample: a JSON body whose `city` field is present but
empty.  The route answers 400 with the `City not provided` error body and
performs no lookup, while the weather result for that city would be a
success record — so a present city does not always yield the weather
record as the claim states. -/
theorem C7_counterexample :
    (⟨some ""⟩ : WeatherRequestBody).city.isSome = true ∧
    (get_weather (some "k") okNet ⟨some ""⟩).status = 400 ∧
    (get_weather (some "k") okNet ⟨some ""⟩).body = .err "City not provided" ∧
    (get_weather (some "k") okNet ⟨some ""⟩).calls = [] ∧
    (get_weather_data (some "k") okNet "").result ≠ .err "City not provided" := by
  refine ⟨rfl, rfl, rfl, rfl, ?_⟩
  intro h
  simp [get_weather_data, okNet, weatherUrl, buildRecord, sampleJson] at h

/-- C7 amended: a body lacking the city field gets 400 with the
`City not provided` error and no network call; a body carrying a
non-empty city gets 200 with the weather result for that city. -/
theorem C7_missing_city_400 (key : Option String) (net : String → HttpResult)
    (data : WeatherRequestBody) :
    (data.city = none →
      get_weather key net data = ⟨400, .err "City not provided", []⟩) ∧
    (∀ c, data.city = some c → c ≠ "" →
      get_weather key net data =
        ⟨200, (get_weather_data key net c).result,
              (get_weather_data key net c).calls⟩) := by
  constructor
  · intro h
    simp [get_weather, h]
  · intro c hc hne
    simp [get_weather, hc, hne]

/-- Witness for C7: the missing-city body and a Paris body. -/
theorem C7_witness :
    ((⟨none⟩ : WeatherRequestBody).city = none ∧
     get_weather (some "k") okNet ⟨none⟩ = ⟨400, .err "City not provided", []⟩) ∧
    (("Paris" : String) ≠ "" ∧
     get_weather (some "k") okNet ⟨some "Paris"⟩ =
       ⟨200, (get_weather_data (some "k") okNet "Paris").result,
             (get_weather_data (some "k") okNet "Paris").calls⟩) :=
  ⟨⟨rfl, (C7_missing_city_400 (some "k") okNet ⟨none⟩).1 rfl⟩,
   ⟨by decide,
    (C7_missing_city_400 (some "k") okNet ⟨some "Paris"⟩).2 "Paris" rfl (by decide)⟩⟩

/-- C8: logout clears all session state unconditionally — identity and
any TravelData bundle — and the dashboard on the resulting session
redirects to login with a visible notice, with no residual identity or
TravelData. -/
theorem C8_logout_clears_everything (sess : Session) :
    (logout sess).2 = clearedSession ∧
    (logout sess).2.user_id = none ∧
    (logout sess).2.user_name = none ∧
    (logout sess).2.travel_data = none ∧
    dashboard (logout sess).2 =
      .toLogin ⟨"Please login to access your dashboard.", "warning"⟩ :=
  ⟨rfl, rfl, rfl, rfl, rfl⟩

/-- C9: when the text-generation call raises, the request fails carrying
only the exception text — no fallback content — and the session is left
unchanged for every API key and HTTP client, so no session write and no
weather call happen. -/
theorem C9_gen_failure_not_recovered (key : Option String)
    (net : String → HttpResult) (gen : String → GenResult) (sess : Session)
    (uid : Nat) (destination start_date end_date e : String)
    (hauth : sess.user_id = some uid)
    (hgen : gen (itineraryPrompt destination start_date end_date) = .raised e) :
    generate_itinerary key net gen sess destination start_date end_date =
      (.failed e, sess) := by
  simp [generate_itinerary, hauth, hgen]

/-- Witness for C9 with a raising generator on an authenticated session. -/
theorem C9_witness :
    authedSession.user_id = some 1 ∧
    failGen (itineraryPrompt "Paris" "2025-06-01" "2025-06-03") =
      .raised "UpstreamError" ∧
    generate_itinerary (some "k") okNet failGen authedSession
        "Paris" "2025-06-01" "2025-06-03" =
      (.failed "UpstreamError", authedSession) :=
  ⟨rfl, rfl,
   C9_gen_failure_not_recovered (some "k") okNet failGen authedSession 1
     "Paris" "2025-06-01" "2025-06-03" "UpstreamError" rfl rfl⟩

/-- C10: the route treats an empty-string city exactly like a missing
one — both answer 400 with the `City not provided` error body and perform
no lookup, for every key and HTTP client. -/
theorem C10_empty_city_like_missing (key : Option String)
    (net : String → HttpResult) :
    get_weather key net ⟨some ""⟩ = ⟨400, .err "City not provided", []⟩ ∧
    get_weather key net ⟨none⟩ = ⟨400, .err "City not provided", []⟩ :=
  ⟨rfl, rfl⟩

end NextStop
